import Mathlib

/-!
# Verification of the Storybutton device client

Shallow embedding of `custom_components/storybutton/storybutton.py` and the
volume-handling parts of `custom_components/storybutton/media_player.py`.

Network effects are modelled by an explicit environment `Env` describing how
the device answers each endpoint, and every client operation returns, next to
its Python result (`Except PyErr _` mirrors Python's raise/return), the list
of network operations it performed, in order.
-/

namespace Storybutton

/-- The `State` enum of `storybutton.py` (UNKNOWN/OFF/ON/PLAYING/PAUSED). -/
inductive State where
  | UNKNOWN
  | OFF
  | ON
  | PLAYING
  | PAUSED
deriving DecidableEq, Repr

/-- Python values a `resp.json()` call can produce (JSON values; numbers are
modelled as integers, which is all the endpoints of this device use). -/
inductive Json where
  | null
  | bool (b : Bool)
  | num (n : Int)
  | str (s : String)
  | arr (elems : List Json)
  | obj (fields : List (String × Json))

/-- Python exceptions the embedded code can raise. `other k` stands for an
arbitrary further exception type (e.g. raised by the HTTP library). -/
inductive PyErr where
  | attributeError
  | noVolume
  | other (k : Nat)
deriving DecidableEq, Repr

/-- Outcome of the reachability probe `GET http://{host}`: any HTTP response
(with its status code), or one of the exceptions `requests.get` can raise. -/
inductive ProbeOutcome where
  | resp (statusCode : Nat)
  | raiseTimeout
  | raiseConnError
  | raiseOther (k : Nat)
deriving DecidableEq, Repr

/-- Outcome of `GET /php/playing.php` followed by `resp.json()`: either some
step raised (network failure or a non-JSON body), or a decoded JSON value. -/
inductive ApiBody where
  | raise
  | json (j : Json)

/-- Network operations a client call can perform, recorded in order. -/
inductive NetOp where
  | httpGetBase
  | httpGetPlaying
  | upnpGetTransportInfo
  | upnpGetVolume
  | upnpSetVolume (v : Int)
deriving DecidableEq, Repr

/-- The device as seen over the network: how each endpoint answers. -/
structure Env where
  probe : ProbeOutcome
  playingBody : ApiBody
  /-- `GetTransportInfo(InstanceID=0).get("CurrentTransportState")`:
  `none` covers both a missing key and an explicit `None` value. -/
  transportState : Option String
  /-- The `GetVolume(InstanceID=0, Channel="Master")` response dictionary. -/
  volumeResp : List (String × Int)

/-- Python truthiness of a JSON value (`if not status`). -/
def pyTruthy : Json → Bool
  | .null => false
  | .bool b => b
  | .num n => n != 0
  | .str s => s != ""
  | .arr elems => !elems.isEmpty
  | .obj fields => !fields.isEmpty

/-- Dictionary lookup `d.get(key)` on a decoded JSON object. -/
def lookupJ : List (String × Json) → String → Option Json
  | [], _ => none
  | (k, v) :: rest, key => if k == key then some v else lookupJ rest key

/-- Dictionary lookup on the `GetVolume` response. -/
def lookupInt : List (String × Int) → String → Option Int
  | [], _ => none
  | (k, v) :: rest, key => if k == key then some v else lookupInt rest key

/-- Python `value == "fail"`: only a string compares equal to a string. -/
def pyEqStr (o : Option Json) (t : String) : Bool :=
  match o with
  | some (.str s) => s == t
  | _ => false

/-- Remove every left-to-right non-overlapping occurrence of `pattern` from
`s` (fuel-driven so it evaluates by kernel reduction). -/
def replaceAllAux (pattern : List Char) : Nat → List Char → List Char
  | _, [] => []
  | 0, s => s
  | Nat.succ fuel, c :: rest =>
    if pattern.isPrefixOf (c :: rest) then
      replaceAllAux pattern fuel ((c :: rest).drop pattern.length)
    else
      c :: replaceAllAux pattern fuel rest

/-- Python `s.replace(pattern, "")`: delete all occurrences of `pattern`. -/
def pyReplaceAll (s pattern : String) : String :=
  String.mk (replaceAllAux pattern.toList s.toList.length s.toList)

/-- `Storybutton.get_power_status`: `True` on any response, `False` on
`Timeout`/`ConnectionError`, every other exception propagates. -/
def get_power_status (env : Env) : Except PyErr Bool × List NetOp :=
  match env.probe with
  | .resp _ => (Except.ok true, [NetOp.httpGetBase])
  | .raiseTimeout => (Except.ok false, [NetOp.httpGetBase])
  | .raiseConnError => (Except.ok false, [NetOp.httpGetBase])
  | .raiseOther k => (Except.error (PyErr.other k), [NetOp.httpGetBase])

/-- `Storybutton._playing_php_response`: decoded JSON, or `None` if anything
in the `try` block raised. -/
def playing_php_response (env : Env) : Option Json × List NetOp :=
  match env.playingBody with
  | .raise => (none, [NetOp.httpGetPlaying])
  | .json j => (some j, [NetOp.httpGetPlaying])

/-- The dict lookup `{"paused": PAUSED, "playing": PLAYING}.get(s, UNKNOWN)`. -/
def mapApiStatus (s : String) : State :=
  if s == "paused" then State.PAUSED
  else if s == "playing" then State.PLAYING
  else State.UNKNOWN

/-- `Storybutton._get_play_status_from_api`. A truthy non-dict JSON body, or a
non-string `chStatus` value reached past the `result == "fail"` check, makes
the Python code raise `AttributeError` (`.get` resp. `.replace` missing). -/
def get_play_status_from_api (env : Env) : Except PyErr State × List NetOp :=
  match playing_php_response env with
  | (none, t) => (Except.ok State.UNKNOWN, t)
  | (some j, t) =>
    if pyTruthy j = false then (Except.ok State.UNKNOWN, t)
    else
      match j with
      | .obj fields =>
        if pyEqStr (lookupJ fields "result") "fail" then
          (Except.ok State.UNKNOWN, t)
        else
          match lookupJ fields "chStatus" with
          | none => (Except.ok (mapApiStatus (pyReplaceAll "" "Play state: ")), t)
          | some (.str s) => (Except.ok (mapApiStatus (pyReplaceAll s "Play state: ")), t)
          | some _ => (Except.error PyErr.attributeError, t)
      | _ => (Except.error PyErr.attributeError, t)

/-- `Storybutton.status`: probe first, `OFF` if unreachable, otherwise the
play status from the `playing.php` API. -/
def status (env : Env) : Except PyErr State × List NetOp :=
  match get_power_status env with
  | (Except.error e, t) => (Except.error e, t)
  | (Except.ok false, t) => (Except.ok State.OFF, t)
  | (Except.ok true, t) =>
    match get_play_status_from_api env with
    | (r, t2) => (r, t ++ t2)

/-- The dict lookup `{"PAUSED_PLAYBACK": PAUSED, "PLAYING": PLAYING}.get(s, UNKNOWN)`. -/
def mapTransportState (o : Option String) : State :=
  match o with
  | some "PAUSED_PLAYBACK" => State.PAUSED
  | some "PLAYING" => State.PLAYING
  | _ => State.UNKNOWN

/-- `Storybutton._get_play_status_from_upnp` (not called by `status`). -/
def get_play_status_from_upnp (env : Env) : State × List NetOp :=
  (mapTransportState env.transportState, [NetOp.upnpGetTransportInfo])

/-- `Storybutton.get_volume`: raise unless `"CurrentVolume" in resp`, else
return `resp["CurrentVolume"]` unmodified. -/
def get_volume (env : Env) : Except PyErr Int × List NetOp :=
  match lookupInt env.volumeResp "CurrentVolume" with
  | none => (Except.error PyErr.noVolume, [NetOp.upnpGetVolume])
  | some v => (Except.ok v, [NetOp.upnpGetVolume])

/-- `Storybutton.set_volume`: sends `max(0, min(100, desired_volume))`. -/
def set_volume (env : Env) (desired_volume : Int) : Except PyErr Unit × List NetOp :=
  (Except.ok (), [NetOp.upnpSetVolume (max 0 (min 100 desired_volume))])

/-- `Storybutton.volume_up`. -/
def volume_up (env : Env) : Except PyErr Int × List NetOp :=
  match get_volume env with
  | (Except.error e, t) => (Except.error e, t)
  | (Except.ok current_volume, t) =>
    if current_volume < 100 then
      match set_volume env (current_volume + 1) with
      | (_, t2) => (Except.ok (current_volume + 1), t ++ t2)
    else (Except.ok current_volume, t)

/-- `Storybutton.volume_down`. -/
def volume_down (env : Env) : Except PyErr Int × List NetOp :=
  match get_volume env with
  | (Except.error e, t) => (Except.error e, t)
  | (Except.ok current_volume, t) =>
    if current_volume > 0 then
      match set_volume env (current_volume - 1) with
      | (_, t2) => (Except.ok (current_volume - 1), t ++ t2)
    else (Except.ok current_volume, t)

/-! ## Host adapter (`media_player.py`), volume-handling part -/

/-- Entity state of `StoryButtonEntity` relevant to volume reporting. -/
structure Entity where
  volume_level : ℚ
deriving DecidableEq, Repr

/-- `StoryButtonEntity.async_update_volume`:
`self._attr_volume_level = self.sb_device.get_volume() / 100`. -/
def async_update_volume (env : Env) (e : Entity) : Except PyErr Entity :=
  match (get_volume env).1 with
  | Except.error err => Except.error err
  | Except.ok v => Except.ok { e with volume_level := (v : ℚ) / 100 }

/-- `StoryButtonEntity.async_volume_up`:
`self._attr_volume_level = self.sb_device.volume_up()` (no division). -/
def async_volume_up (env : Env) (e : Entity) : Except PyErr Entity :=
  match (volume_up env).1 with
  | Except.error err => Except.error err
  | Except.ok v => Except.ok { e with volume_level := (v : ℚ) }

/-- `StoryButtonEntity.async_volume_down`:
`self._attr_volume_level = self.sb_device.volume_down()` (no division). -/
def async_volume_down (env : Env) (e : Entity) : Except PyErr Entity :=
  match (volume_down env).1 with
  | Except.error err => Except.error err
  | Except.ok v => Except.ok { e with volume_level := (v : ℚ) }

/-! ## Lazy UPnP session resolution (`Storybutton.upnp_client` property)

`self._upnp_client` starts out `None`; the property calls
`self._config.upnp_factory(...)` only when it is still `None` and caches the
result. We track the cached session (identified by the value of the factory
invocation counter at creation time) and the number of factory invocations. -/

/-- `_upnp_client` cache plus a count of `upnp_factory` invocations. -/
structure CState where
  session : Option Nat
  factoryCalls : Nat
deriving DecidableEq, Repr

/-- The state right after `Storybutton.__init__`. -/
def initState : CState := { session := none, factoryCalls := 0 }

/-- One read of the `upnp_client` property: resolve via the factory if the
cache is empty, otherwise return the cached session untouched. -/
def touchUpnp (s : CState) : CState :=
  match s.session with
  | some _ => s
  | none => { session := some s.factoryCalls, factoryCalls := s.factoryCalls + 1 }

/-- The public operations of a `Storybutton` instance. -/
inductive COp where
  | opPowerStatus
  | opStatus
  | opTitle
  | opName
  | opGetVolume
  | opSetVolume (v : Int)
  | opVolumeUp
  | opVolumeDown
  | opPlay
  | opPause
  | opMute
  | opUnmute
  | opUpnpStatus
deriving DecidableEq, Repr

/-- Whether the operation's body reads the `upnp_client` property.
`get_power_status`, `status` and `title` only use the HTTP client. -/
def touchesUpnp : COp → Bool
  | .opPowerStatus => false
  | .opStatus => false
  | .opTitle => false
  | _ => true

/-- Effect of one operation on the session cache. An operation that reads the
property several times (e.g. `volume_up`) still maps to a single `touchUpnp`
since `touchUpnp` is idempotent (`touchUpnp_idem`). -/
def stepSession (s : CState) (op : COp) : CState :=
  if touchesUpnp op then touchUpnp s else s

/-- Run a sequence of operations from a freshly constructed instance. -/
def runOps (ops : List COp) : CState := ops.foldl stepSession initState

theorem touchUpnp_idem (s : CState) : touchUpnp (touchUpnp s) = touchUpnp s := by
  cases s with
  | mk session factoryCalls => cases session <;> rfl

/-! ## Concrete environments used by witnesses -/

/-- An unreachable device (probe times out). -/
def envOffline : Env :=
  { probe := ProbeOutcome.raiseTimeout, playingBody := ApiBody.raise,
    transportState := none, volumeResp := [] }

/-- A reachable device reporting volume 50. -/
def envVol50 : Env :=
  { probe := ProbeOutcome.resp 200, playingBody := ApiBody.raise,
    transportState := none, volumeResp := [("CurrentVolume", 50)] }

/-- A reachable device whose `GetVolume` response lacks `CurrentVolume`. -/
def envNoVolume : Env :=
  { probe := ProbeOutcome.resp 200, playingBody := ApiBody.raise,
    transportState := none, volumeResp := [] }

/-! ## Claims -/

/-- C1: if the reachability probe fails (`get_power_status` returns `False`),
`status()` returns `Off` immediately having performed only the probe itself:
no UPnP action and no `playing.php` query appears in the trace. -/
theorem C1_probe_fail_off (env : Env)
    (h : (get_power_status env).1 = Except.ok false) :
    status env = (Except.ok State.OFF, [NetOp.httpGetBase]) ∧
    NetOp.httpGetPlaying ∉ (status env).2 ∧
    NetOp.upnpGetTransportInfo ∉ (status env).2 ∧
    NetOp.upnpGetVolume ∉ (status env).2 := by
  have hstat : status env = (Except.ok State.OFF, [NetOp.httpGetBase]) := by
    cases henv : env.probe
    · simp [get_power_status, henv] at h
    · simp [status, get_power_status, henv]
    · simp [status, get_power_status, henv]
    · simp [get_power_status, henv] at h
  refine ⟨hstat, ?_, ?_, ?_⟩ <;> rw [hstat] <;> decide

/-- C1 witness: a concrete timed-out probe yields `Off` with only the probe
in the trace. -/
theorem C1_witness :
    status envOffline = (Except.ok State.OFF, [NetOp.httpGetBase]) :=
  (C1_probe_fail_off envOffline rfl).1

/-- C3: `set_volume` never rejects its input: for every integer it sends
exactly `max 0 (min 100 desired)`, which is `desired` itself on [0,100]. -/
theorem C3_set_volume_clamp (env : Env) (v : Int) :
    set_volume env v = (Except.ok (), [NetOp.upnpSetVolume (max 0 (min 100 v))]) ∧
    (0 ≤ v → v ≤ 100 → max 0 (min 100 v) = v) := by
  refine ⟨rfl, fun h0 h100 => ?_⟩
  rw [min_eq_right h100, max_eq_right h0]

/-- C3 witness: 150 is sent as 100, -10 as 0, and 50 unchanged. -/
theorem C3_witness :
    set_volume envVol50 150 = (Except.ok (), [NetOp.upnpSetVolume (max 0 (min 100 150))]) ∧
    max 0 (min 100 (150 : Int)) = 100 ∧
    max 0 (min 100 (-10 : Int)) = 0 ∧
    max 0 (min 100 (50 : Int)) = 50 :=
  ⟨(C3_set_volume_clamp envVol50 150).1, by decide, by decide,
   (C3_set_volume_clamp envVol50 50).2 (by decide) (by decide)⟩

/-- C5: `get_volume` raises exactly when the `GetVolume` response lacks the
`CurrentVolume` field, and otherwise returns that field's value unmodified. -/
theorem C5_get_volume_contract (env : Env) :
    ((∃ e, (get_volume env).1 = Except.error e) ↔
      lookupInt env.volumeResp "CurrentVolume" = none) ∧
    (∀ v : Int, lookupInt env.volumeResp "CurrentVolume" = some v →
      (get_volume env).1 = Except.ok v) := by
  cases hl : lookupInt env.volumeResp "CurrentVolume" with
  | none =>
    refine ⟨⟨fun _ => rfl, fun _ => ⟨PyErr.noVolume, by simp [get_volume, hl]⟩⟩, ?_⟩
    intro v hv
    cases hv
  | some v0 =>
    refine ⟨⟨fun he => ?_, fun hn => ?_⟩, ?_⟩
    · rcases he with ⟨e, he⟩
      rw [get_volume, hl] at he
      cases he
    · cases hn
    · intro v hv
      injection hv with hv
      subst hv
      simp [get_volume, hl]

/-- C5 witness: with `CurrentVolume = 50` present, `get_volume` returns 50;
with the field absent, it raises. -/
theorem C5_witness :
    (get_volume envVol50).1 = Except.ok 50 ∧
    (∃ e, (get_volume envNoVolume).1 = Except.error e) :=
  ⟨(C5_get_volume_contract envVol50).2 50 rfl,
   (C5_get_volume_contract envNoVolume).1.mpr rfl⟩

/-- C7: the probe returns `True` on any HTTP response whatever its status
code, returns `False` exactly on timeout/connection errors, and re-raises
every other exception unchanged. -/
theorem C7_power_status_contract (env : Env) :
    (∀ c, env.probe = ProbeOutcome.resp c →
      get_power_status env = (Except.ok true, [NetOp.httpGetBase])) ∧
    ((get_power_status env).1 = Except.ok false ↔
      (env.probe = ProbeOutcome.raiseTimeout ∨ env.probe = ProbeOutcome.raiseConnError)) ∧
    (∀ k, env.probe = ProbeOutcome.raiseOther k →
      get_power_status env = (Except.error (PyErr.other k), [NetOp.httpGetBase])) := by
  refine ⟨?_, ?_, ?_⟩
  · intro c hc
    simp [get_power_status, hc]
  · cases henv : env.probe <;> simp [get_power_status, henv]
  · intro k hk
    simp [get_power_status, hk]

/-- C7 witness: a 404 response still counts as reachable. -/
theorem C7_witness :
    get_power_status
        { probe := ProbeOutcome.resp 404, playingBody := ApiBody.raise,
          transportState := none, volumeResp := [] }
      = (Except.ok true, [NetOp.httpGetBase]) :=
  (C7_power_status_contract _).1 404 rfl

/-- C4: with a device-reported volume `v ∈ [0,100]` (the device contract for
`GetVolume`): `volume_up` issues `SetVolume (v+1)` and returns `v+1` when
`v < 100` and issues no volume mutation returning `v` otherwise;
`volume_down` symmetrically at the lower bound. -/
theorem C4_volume_step (env : Env) (v : Int)
    (hv : lookupInt env.volumeResp "CurrentVolume" = some v)
    (h0 : 0 ≤ v) (h100 : v ≤ 100) :
    (v < 100 →
      volume_up env = (Except.ok (v + 1),
        [NetOp.upnpGetVolume, NetOp.upnpSetVolume (v + 1)])) ∧
    (100 ≤ v → volume_up env = (Except.ok v, [NetOp.upnpGetVolume])) ∧
    (0 < v →
      volume_down env = (Except.ok (v - 1),
        [NetOp.upnpGetVolume, NetOp.upnpSetVolume (v - 1)])) ∧
    (v ≤ 0 → volume_down env = (Except.ok v, [NetOp.upnpGetVolume])) := by
  have hg : get_volume env = (Except.ok v, [NetOp.upnpGetVolume]) := by
    simp [get_volume, hv]
  refine ⟨?_, ?_, ?_, ?_⟩
  · intro hlt
    have hc : max 0 (min 100 (v + 1)) = v + 1 := by
      rw [min_eq_right (by omega), max_eq_right (by omega)]
    simp [volume_up, hg, set_volume, hlt, hc]
  · intro hge
    have hnlt : ¬ (v < 100) := by omega
    simp [volume_up, hg, hnlt]
  · intro hpos
    have hc : max 0 (min 100 (v - 1)) = v - 1 := by
      rw [min_eq_right (by omega), max_eq_right (by omega)]
    simp [volume_down, hg, set_volume, hpos, hc]
  · intro hle
    have hngt : ¬ (v > 0) := by omega
    simp [volume_down, hg, hngt]

/-- C4 witness: at reported volume 50, `volume_up` issues `SetVolume 51` and
returns 51. -/
theorem C4_witness :
    volume_up envVol50 = (Except.ok 51,
      [NetOp.upnpGetVolume, NetOp.upnpSetVolume 51]) :=
  (C4_volume_step envVol50 50 rfl (by decide) (by decide)).1 (by decide)

/-! ## Session-resolution invariant (claim C9) -/

/-- The reachable session states: either never resolved, or resolved exactly
once (by the first factory invocation). -/
def SessionInv (s : CState) : Prop :=
  (s.session = none ∧ s.factoryCalls = 0) ∨
  (s.session = some 0 ∧ s.factoryCalls = 1)

theorem stepSession_inv (s : CState) (op : COp) (h : SessionInv s) :
    SessionInv (stepSession s op) := by
  cases htouch : touchesUpnp op with
  | false => simpa [stepSession, htouch] using h
  | true =>
    rcases h with ⟨h1, h2⟩ | ⟨h1, h2⟩
    · right
      simp [stepSession, htouch, touchUpnp, h1, h2]
    · right
      simp [stepSession, htouch, touchUpnp, h1, h2]

theorem foldl_sessionInv (ops : List COp) (s : CState) (h : SessionInv s) :
    SessionInv (ops.foldl stepSession s) := by
  induction ops generalizing s with
  | nil => exact h
  | cons op rest ih => exact ih _ (stepSession_inv s op h)

theorem stepSession_stable (s : CState) (op : COp) (i : Nat)
    (h : s.session = some i) : (stepSession s op).session = some i := by
  cases htouch : touchesUpnp op with
  | false => simpa [stepSession, htouch] using h
  | true => simp [stepSession, htouch, touchUpnp, h]

theorem foldl_session_stable (ops : List COp) (s : CState) (i : Nat)
    (h : s.session = some i) :
    (ops.foldl stepSession s).session = some i := by
  induction ops generalizing s with
  | nil => exact h
  | cons op rest ih => exact ih _ (stepSession_stable s op i h)

/-- C9: over any operation sequence on one instance, the UPnP factory is
invoked at most once, and once the session is resolved every later operation
still sees that same session. -/
theorem C9_lazy_session (ops : List COp) :
    (runOps ops).factoryCalls ≤ 1 ∧
    (∀ i, (runOps ops).session = some i →
      ∀ more : List COp,
        (more.foldl stepSession (runOps ops)).session = some i) := by
  have hinv : SessionInv (runOps ops) :=
    foldl_sessionInv ops initState (Or.inl ⟨rfl, rfl⟩)
  constructor
  · rcases hinv with ⟨_, h2⟩ | ⟨_, h2⟩ <;> omega
  · intro i hi more
    exact foldl_session_stable more _ i hi

/-- C9 witness: after `name()` resolves the session, later volume operations
reuse it and the factory ran exactly once. -/
theorem C9_witness :
    (runOps [COp.opName]).factoryCalls ≤ 1 ∧
    ([COp.opGetVolume, COp.opVolumeUp].foldl stepSession
        (runOps [COp.opName])).session = some 0 :=
  ⟨(C9_lazy_session [COp.opName]).1,
   (C9_lazy_session [COp.opName]).2 0 (by decide)
     [COp.opGetVolume, COp.opVolumeUp]⟩

/-- A reachable device whose UPnP transport state says PLAYING while the
`playing.php` API says paused: exhibits that `status()` never consults the
transport state. -/
def envTransportPlaying : Env :=
  { probe := ProbeOutcome.resp 200,
    playingBody := ApiBody.json (Json.obj
      [("result", Json.str "success"), ("chStatus", Json.str "Play state: paused")]),
    transportState := some "PLAYING",
    volumeResp := [] }

/-- C6 counterexample: with transport state `"PLAYING"`, `status()` returns
`Paused` (from the API path) and never issues `GetTransportInfo`, so the
claimed `status()` mapping from transport state does not hold. -/
theorem C6_counterexample :
    envTransportPlaying.transportState = some "PLAYING" ∧
    (status envTransportPlaying).1 = Except.ok State.PAUSED ∧
    State.PAUSED ≠ State.PLAYING ∧
    NetOp.upnpGetTransportInfo ∉ (status envTransportPlaying).2 := by
  refine ⟨rfl, ?_, by decide, by decide⟩
  rfl

/-- C6 (amended): the transport-state mapping holds exactly of the UPnP
status helper `_get_play_status_from_upnp` (which `status()` does not call):
`"PLAYING"` maps to Playing, `"PAUSED_PLAYBACK"` to Paused, `"STOPPED"` to
Unknown, and a missing/None state to Unknown. -/
theorem C6_transport_mapping (env : Env) :
    (env.transportState = some "PLAYING" →
      (get_play_status_from_upnp env).1 = State.PLAYING) ∧
    (env.transportState = some "PAUSED_PLAYBACK" →
      (get_play_status_from_upnp env).1 = State.PAUSED) ∧
    (env.transportState = some "STOPPED" →
      (get_play_status_from_upnp env).1 = State.UNKNOWN) ∧
    (env.transportState = none →
      (get_play_status_from_upnp env).1 = State.UNKNOWN) ∧
    (∀ s : String, s ≠ "PLAYING" → s ≠ "PAUSED_PLAYBACK" →
      env.transportState = some s →
      (get_play_status_from_upnp env).1 = State.UNKNOWN) := by
  refine ⟨?_, ?_, ?_, ?_, ?_⟩
  · intro h
    simp [get_play_status_from_upnp, mapTransportState, h]
  · intro h
    simp [get_play_status_from_upnp, mapTransportState, h]
  · intro h
    simp [get_play_status_from_upnp, mapTransportState, h]
  · intro h
    simp [get_play_status_from_upnp, mapTransportState, h]
  · intro s hs1 hs2 h
    simp only [get_play_status_from_upnp, mapTransportState, h]
    split
    · next heq =>
        injection heq with heq
        exact absurd heq hs2
    · next heq =>
        injection heq with heq
        exact absurd heq hs1
    · rfl

/-- C6 witness for the amended claim, at the four listed transport states. -/
theorem C6_witness :
    (get_play_status_from_upnp
        { envTransportPlaying with transportState := some "PLAYING" }).1
      = State.PLAYING ∧
    (get_play_status_from_upnp
        { envTransportPlaying with transportState := some "PAUSED_PLAYBACK" }).1
      = State.PAUSED ∧
    (get_play_status_from_upnp
        { envTransportPlaying with transportState := some "STOPPED" }).1
      = State.UNKNOWN ∧
    (get_play_status_from_upnp
        { envTransportPlaying with transportState := none }).1
      = State.UNKNOWN :=
  ⟨(C6_transport_mapping _).1 rfl,
   (C6_transport_mapping _).2.1 rfl,
   (C6_transport_mapping _).2.2.1 rfl,
   (C6_transport_mapping _).2.2.2.1 rfl⟩

/-- C10: for a reachable device whose `playing.php` body is a JSON object
with `"result" = "fail"`, `status()` returns Unknown whatever `chStatus`
holds (the `result` check short-circuits before `chStatus` is read). -/
theorem C10_result_fail_unknown (env : Env) (c : Nat)
    (fields : List (String × Json))
    (hp : env.probe = ProbeOutcome.resp c)
    (hb : env.playingBody = ApiBody.json (Json.obj fields))
    (hr : pyEqStr (lookupJ fields "result") "fail" = true) :
    status env = (Except.ok State.UNKNOWN,
      [NetOp.httpGetBase, NetOp.httpGetPlaying]) := by
  cases fields with
  | nil => simp [lookupJ, pyEqStr] at hr
  | cons p rest =>
    simp [status, get_power_status, hp, get_play_status_from_api,
      playing_php_response, hb, pyTruthy, hr]

/-- C10 witness: `result = "fail"` with `chStatus = "Play state: playing"`
still yields Unknown. -/
theorem C10_witness :
    status
        { probe := ProbeOutcome.resp 200,
          playingBody := ApiBody.json (Json.obj
            [("result", Json.str "fail"),
             ("chStatus", Json.str "Play state: playing")]),
          transportState := none, volumeResp := [] }
      = (Except.ok State.UNKNOWN, [NetOp.httpGetBase, NetOp.httpGetPlaying]) :=
  C10_result_fail_unknown _ 200 _ rfl rfl rfl

/-- Bodies of `playing.php` on which `_get_play_status_from_api` cannot raise:
a failed fetch/decode, a falsy JSON value, or a JSON object that either
short-circuits on `result = "fail"` or has an absent-or-string `chStatus`.
On a truthy non-object body the Python code calls `.get` on a non-dict; on a
non-string `chStatus` it calls `.replace` on a non-string — `AttributeError`
either way. -/
def apiBodySafe : ApiBody → Bool
  | .raise => true
  | .json j =>
    if pyTruthy j = false then true
    else
      match j with
      | .obj fields =>
        pyEqStr (lookupJ fields "result") "fail" ||
          (match lookupJ fields "chStatus" with
           | none => true
           | some (.str _) => true
           | some _ => false)
      | _ => false

theorem api_safe_no_raise (env : Env)
    (hsafe : apiBodySafe env.playingBody = true) :
    (∃ s : State, (get_play_status_from_api env).1 = Except.ok s) ∧
    ((env.playingBody = ApiBody.raise ∨
        (∃ j, env.playingBody = ApiBody.json j ∧ pyTruthy j = false)) →
      (get_play_status_from_api env).1 = Except.ok State.UNKNOWN) := by
  cases hb : env.playingBody with
  | raise =>
    refine ⟨⟨State.UNKNOWN, ?_⟩, fun _ => ?_⟩ <;>
      simp [get_play_status_from_api, playing_php_response, hb]
  | json j =>
    rw [hb] at hsafe
    cases ht : pyTruthy j with
    | false =>
      refine ⟨⟨State.UNKNOWN, ?_⟩, fun _ => ?_⟩ <;>
        simp [get_play_status_from_api, playing_php_response, hb, ht]
    | true =>
      have hnot : ¬ (ApiBody.json j = ApiBody.raise ∨
          (∃ j', ApiBody.json j = ApiBody.json j' ∧ pyTruthy j' = false)) := by
        rintro (h | ⟨j', hj', hf⟩)
        · cases h
        · injection hj' with e
          subst e
          rw [ht] at hf
          cases hf
      refine ⟨?_, fun h => absurd h hnot⟩
      cases j with
      | obj fields =>
        cases hr : pyEqStr (lookupJ fields "result") "fail" with
        | true =>
          exact ⟨State.UNKNOWN, by
            simp [get_play_status_from_api, playing_php_response, hb, ht, hr]⟩
        | false =>
          cases hch : lookupJ fields "chStatus" with
          | none =>
            exact ⟨mapApiStatus (pyReplaceAll "" "Play state: "), by
              simp [get_play_status_from_api, playing_php_response, hb, ht, hr, hch]⟩
          | some jv =>
            cases jv with
            | str s =>
              exact ⟨mapApiStatus (pyReplaceAll s "Play state: "), by
                simp [get_play_status_from_api, playing_php_response, hb, ht, hr, hch]⟩
            | null => simp [apiBodySafe, ht, hr, hch] at hsafe
            | bool b => simp [apiBodySafe, ht, hr, hch] at hsafe
            | num n => simp [apiBodySafe, ht, hr, hch] at hsafe
            | arr elems => simp [apiBodySafe, ht, hr, hch] at hsafe
            | obj fs => simp [apiBodySafe, ht, hr, hch] at hsafe
      | null => simp [pyTruthy] at ht
      | bool b => simp [apiBodySafe, ht] at hsafe
      | num n => simp [apiBodySafe, ht] at hsafe
      | str s => simp [apiBodySafe, ht] at hsafe
      | arr elems => simp [apiBodySafe, ht] at hsafe

/-- C2 counterexample: a reachable device returning the (truthy, non-object)
JSON body `"ok"` makes `status()` raise `AttributeError` (`.get` on a
non-dict), so `status()` does not tolerate every JSON value. -/
theorem C2_counterexample :
    (status
        { probe := ProbeOutcome.resp 200,
          playingBody := ApiBody.json (Json.str "ok"),
          transportState := none, volumeResp := [] }).1
      = Except.error PyErr.attributeError := rfl

/-- C2 (amended): for a reachable device, `status()` never raises provided
the `playing.php` body is a failed fetch/non-JSON, a falsy JSON value, or a
JSON object whose `chStatus` is absent or a string (or whose `result` is
`"fail"`); unparseable responses (fetch/decode failure or falsy value) yield
Unknown. Truthy non-object bodies, and objects with a non-string `chStatus`
reached past the `result` check, raise `AttributeError` instead. -/
theorem C2_status_no_raise (env : Env) (c : Nat)
    (hp : env.probe = ProbeOutcome.resp c)
    (hsafe : apiBodySafe env.playingBody = true) :
    (∃ s : State, (status env).1 = Except.ok s) ∧
    ((env.playingBody = ApiBody.raise ∨
        (∃ j, env.playingBody = ApiBody.json j ∧ pyTruthy j = false)) →
      (status env).1 = Except.ok State.UNKNOWN) := by
  have hs1 : (status env).1 = (get_play_status_from_api env).1 := by
    rcases h2 : get_play_status_from_api env with ⟨r, t2⟩
    simp [status, get_power_status, hp, h2]
  obtain ⟨⟨s, hsx⟩, hu⟩ := api_safe_no_raise env hsafe
  exact ⟨⟨s, by rw [hs1]; exact hsx⟩, fun h => by rw [hs1]; exact hu h⟩

/-- C2 witness: a reachable device whose `playing.php` fetch fails degrades
to Unknown without raising. -/
theorem C2_witness :
    (status envNoVolume).1 = Except.ok State.UNKNOWN :=
  (C2_status_no_raise envNoVolume 200 rfl rfl).2 (Or.inl rfl)

/-- C8: code bug in the host adapter. `async_update_volume` reports the
device volume divided by 100 (within [0,1]), but `async_volume_up` stores
the raw 0-100 integer returned by `volume_up`: at device volume 50 the
reported `volume_level` becomes 51, outside [0,1]. -/
theorem C8_raw_volume_level_bug :
    async_volume_up envVol50 { volume_level := 1 / 2 }
      = Except.ok { volume_level := ((51 : Int) : ℚ) } ∧
    ¬ (((51 : Int) : ℚ) ≤ 1) ∧
    async_update_volume envVol50 { volume_level := 1 / 2 }
      = Except.ok { volume_level := ((50 : Int) : ℚ) / 100 } ∧
    0 ≤ ((50 : Int) : ℚ) / 100 ∧ ((50 : Int) : ℚ) / 100 ≤ 1 := by
  refine ⟨rfl, by norm_num, rfl, by norm_num, by norm_num⟩

end Storybutton
